import Mathlib

/-!
Shallow embedding of the Chat Resource & Share-Token Service of the
Chatviewer repository (src/apps/rest-api/src/controllers/chatController.ts),
together with theorems settling the frozen claims about it.

JavaScript/runtime conventions used by the embedding:
* the resolved user id `+res.locals.user_auth_payload?.userId` is a number
  whose only falsy outcomes (missing payload, NaN, 0) are all encoded as the
  natural number 0;
* machine `undefined`/`null` dereferences are modelled with `Option` and an
  explicit `Outcome.thrown` constructor for exceptions that escape a handler;
* the Sequelize association check `user.hasChat(chatId)` returns a Promise,
  and the source does not `await` it, so the controller only ever observes the
  Promise object itself, which is truthy in JavaScript.
-/

/-- A stored chat row (Sequelize `Chat` model): primary key `chatId`, owner
`userId`, mutable `name`, immutable `mimeType`/`data`, managed timestamps. -/
structure ChatRec where
  chatId : Nat
  userId : Nat
  name : String
  mimeType : String
  data : List Nat
  createdAt : Nat
  updatedAt : Nat
deriving DecidableEq, Repr

/-- The relational state: existing user ids, chat rows, and the
auto-increment counter for the chat primary key. -/
structure DB where
  users : List Nat
  chats : List ChatRec
  nextId : Nat
deriving DecidableEq, Repr

/-- The JSON metadata object the controllers send: `name?` is `none` when the
serialized JSON omits the `name` field (token-scoped response) and `some n`
when the field is present (owner-scoped responses). -/
structure ChatMetaBody where
  blobUrl : String
  chatId : Nat
  userId : Nat
  name? : Option String
  createdAt : Nat
  updatedAt : Nat
deriving DecidableEq, Repr

/-- Response bodies produced by the controllers. -/
inductive RespBody where
  | message (msg : String)
  | chatMeta (m : ChatMetaBody)
  | chatList (l : List ChatMetaBody)
  | blob (mimeType : String) (data : List Nat)
deriving DecidableEq, Repr

/-- An HTTP response: status code, headers, body. -/
structure HttpResponse where
  status : Nat
  headers : List (String × String)
  body : RespBody
deriving DecidableEq, Repr

/-- Either a response was sent, or an exception escaped the handler
(unhandled server error: no HTTP response is produced by the handler). -/
inductive Outcome where
  | resp (r : HttpResponse)
  | thrown (msg : String)
deriving DecidableEq, Repr

/-- Status code of an outcome, `none` when the handler threw. -/
def Outcome.statusOf : Outcome → Option Nat
  | .resp r => some r.status
  | .thrown _ => none

/-- Value of a response header, `none` when absent or when the handler threw. -/
def Outcome.header (o : Outcome) (nm : String) : Option String :=
  match o with
  | .resp r => (r.headers.find? (fun p => p.1 == nm)).map (fun p => p.2)
  | .thrown _ => none

/-- The chat-list body of an outcome, when it is one. -/
def Outcome.listBody : Outcome → Option (List ChatMetaBody)
  | .resp r =>
    match r.body with
    | .chatList l => some l
    | _ => none
  | .thrown _ => none

/-- The single-chat metadata body of an outcome, when it is one. -/
def Outcome.metaBody : Outcome → Option ChatMetaBody
  | .resp r =>
    match r.body with
    | .chatMeta m => some m
    | _ => none
  | .thrown _ => none

/-- Response `res.status(403).json(message: 'Not a valid token')`. -/
def forbiddenOutcome : Outcome := .resp ⟨403, [], .message "Not a valid token"⟩

/-- Response `res.status(404).json(message: 'User not found')`. -/
def userNotFoundOutcome : Outcome := .resp ⟨404, [], .message "User not found"⟩

/-- Response `res.status(404).json(message: 'Chat not found')`. -/
def chatNotFoundOutcome : Outcome := .resp ⟨404, [], .message "Chat not found"⟩

/-- Message of the TypeError thrown by `null[0]` (`match` returned null). -/
def jsNullIndexMsg : String := "TypeError: Cannot read properties of null"

/-- Message of the TypeError thrown by `undefined.chatId` and similar. -/
def jsUndefinedMsg : String := "TypeError: Cannot read properties of undefined"

/-- Message of the error thrown by `jwt.verify` on any invalid token. -/
def jwtInvalidMsg : String := "JsonWebTokenError"

/-- JS word character, the `\w` class: ASCII letters, digits, underscore. -/
def isWordChar (c : Char) : Bool :=
  ('A' ≤ c && c ≤ 'Z') || ('a' ≤ c && c ≤ 'z') || ('0' ≤ c && c ≤ '9') || c == '_'

/-- Character class of the second regex component: word chars plus dash,
plus sign and dot (the dash after a class escape is a literal in JS). -/
def isMimeTailChar (c : Char) : Bool :=
  isWordChar c || c == '-' || c == '+' || c == '.'

/-- Attempt the regex match anchored at the head of the character list,
following the source pattern: one character other than a colon, one or more
word characters, a slash, one or more tail-class characters, with a lookahead
requiring a semicolon or comma.  Both repetitions are greedy and, because the
follow character is outside the repeated class, no backtracking can succeed
where the greedy run fails. -/
def matchMimeAt : List Char → Option (List Char)
  | [] => none
  | c0 :: rest =>
    if c0 == ':' then none
    else
      let w := rest.takeWhile isWordChar
      let r1 := rest.dropWhile isWordChar
      if w.isEmpty then none
      else
        match r1 with
        | '/' :: r2 =>
          let t := r2.takeWhile isMimeTailChar
          let r3 := r2.dropWhile isMimeTailChar
          if t.isEmpty then none
          else
            match r3 with
            | c :: _ => if c == ';' || c == ',' then some (c0 :: (w ++ '/' :: t)) else none
            | [] => none
        | _ => none

/-- Leftmost regex search: try each start position from the left. -/
def matchScan : List Char → Option (List Char)
  | [] => none
  | c :: cs =>
    match matchMimeAt (c :: cs) with
    | some m => some m
    | none => matchScan cs

/-- The source expression `req.body.base64.match(pattern)`: `some` of the
matched text, or `none` when the string has no recognizable MIME segment
(JS returns `null` there, and the subsequent `[0]` access throws). -/
def matchMime (s : String) : Option String :=
  (matchScan s.toList).map List.asString

/-- Value of one base64 alphabet character. -/
def b64Val (c : Char) : Option Nat :=
  if 'A' ≤ c ∧ c ≤ 'Z' then some (c.toNat - 65)
  else if 'a' ≤ c ∧ c ≤ 'z' then some (c.toNat - 97 + 26)
  else if '0' ≤ c ∧ c ≤ '9' then some (c.toNat - 48 + 52)
  else if c = '+' then some 62
  else if c = '/' then some 63
  else none

/-- Decode a stream of 6-bit values into bytes, four at a time; a trailing
group of two or three values yields one or two bytes, as Node does. -/
def decodeB64Chunks : List Nat → List Nat
  | a :: b :: c :: d :: rest =>
    (a * 4 + b / 16) :: ((b % 16) * 16 + c / 4) :: ((c % 4) * 64 + d) :: decodeB64Chunks rest
  | [a, b, c] => [a * 4 + b / 16, (b % 16) * 16 + c / 4]
  | [a, b] => [a * 4 + b / 16]
  | _ => []

/-- Node's forgiving `Buffer.from(s, 'base64')`: characters outside the
alphabet (including padding) are skipped, the rest are decoded. -/
def decodeBase64 (s : String) : List Nat :=
  decodeB64Chunks (s.toList.filterMap b64Val)

/-- A JavaScript Promise as the un-awaited caller sees it. -/
structure JsPromise (α : Type) where
  resolvesTo : α
deriving DecidableEq, Repr

/-- JS truthiness of a Promise: any object is truthy, regardless of the value
it would resolve to. -/
def JsPromise.truthy {α : Type} (_p : JsPromise α) : Bool := true

/-- Sequelize association check `user.hasChat(chatId)`: resolves to whether a
chat with that primary key is associated to the user.  It returns a Promise;
the source calls it without `await`. -/
def hasChat (db : DB) (userID chatId : Nat) : JsPromise Bool :=
  ⟨db.chats.any (fun c => c.chatId == chatId && c.userId == userID)⟩

/-- JS property access on a possibly-null/undefined value: throws on none. -/
def jsGet {α β : Type} (o : Option α) (f : α → β) : Except String β :=
  match o with
  | none => .error jsUndefinedMsg
  | some a => .ok (f a)

/-- JS numeric indexing `instance[0]` on the single Sequelize model instance
returned by `findOne`: model instances are not arrays and have no numeric
index properties, so the access yields `undefined`. -/
def jsIndexZero (_c : ChatRec) : Option ChatRec := none

/-- A well-formed share token: payload `chatId`, expiration, signature. -/
structure Token where
  chatId : Nat
  exp : Nat
  sig : Nat
deriving DecidableEq, Repr

/-- Model of the HMAC over the payload and expiration under the secret. -/
def mac (secret chatId exp : Nat) : Nat :=
  (secret * 1000003 + chatId) * 1000003 + exp

/-- Serialization of a token into the header string. -/
def Token.serialize (t : Token) : String :=
  toString t.chatId ++ "." ++ toString t.exp ++ "." ++ toString t.sig

/-- The `token` path parameter of the share endpoints: either not even a
structurally valid JWT, or a structured token whose signature may or may not
verify. -/
inductive TokenParam where
  | malformed (s : String)
  | wellFormed (t : Token)
deriving DecidableEq, Repr

/-- Model of `jwt.verify(token, secret)`: a malformed payload, a bad
signature and an elapsed expiry all collapse to `none` (the library throws,
the callers map every throw to one outcome). -/
def jwtVerify (secret now : Nat) : TokenParam → Option Nat
  | .malformed _ => none
  | .wellFormed t =>
    if t.sig = mac secret t.chatId t.exp ∧ now < t.exp then some t.chatId else none

/-- Model of the expiresIn parsing done by `jwt.sign` (the ms library):
digits followed by an optional unit; result in seconds; `none` makes
`jwt.sign` throw. -/
def parseExpiry (s : String) : Option Nat :=
  let cs := s.toList
  let digits := cs.takeWhile Char.isDigit
  let rest := cs.dropWhile Char.isDigit
  if digits.isEmpty then none
  else
    let n := digits.foldl (fun a c => a * 10 + (c.toNat - 48)) 0
    match rest with
    | [] => some n
    | ['s'] => some n
    | ['m'] => some (n * 60)
    | ['h'] => some (n * 3600)
    | ['d'] => some (n * 86400)
    | _ => none

/-- Chats owned by a user: the `WHERE userId = ?` filter of both raw
queries in the list controller. -/
def chatRowsFor (db : DB) (userID : Nat) : List ChatRec :=
  db.chats.filter (fun c => c.userId == userID)

/-- The comparison the `ORDER BY` clause denotes: ascending on the sort key,
except `updatedAt`, which the source suffixes with `DESC`. -/
def sortLe (k : String) (a b : ChatRec) : Bool :=
  if k = "updatedAt" then decide (b.updatedAt ≤ a.updatedAt)
  else if k = "name" then decide (a.name ≤ b.name)
  else decide (a.createdAt ≤ b.createdAt)

/-- Insert an element into a list sorted by the comparison. -/
def sqlInsert (le : ChatRec → ChatRec → Bool) (x : ChatRec) : List ChatRec → List ChatRec
  | [] => [x]
  | y :: ys => if le x y then x :: y :: ys else y :: sqlInsert le x ys

/-- Semantics of the SQL `ORDER BY` clause: a sort of the selected rows by
the comparison (insertion sort; SQL fixes no order among ties). -/
def sqlOrderBy (le : ChatRec → ChatRec → Bool) : List ChatRec → List ChatRec
  | [] => []
  | x :: xs => sqlInsert le x (sqlOrderBy le xs)

/-- The rows the list query returns: owner filter, `ORDER BY`, then
`LIMIT perPage OFFSET perPage * (page - 1)`. -/
def listItems (db : DB) (userID perPage page : Nat) (k : String) : List ChatRec :=
  ((sqlOrderBy (sortLe k) (chatRowsFor db userID)).drop (perPage * (page - 1))).take perPage

/-- The count query: `SELECT COUNT(*) FROM chats WHERE userId = ?`. -/
def listTotal (db : DB) (userID : Nat) : Nat :=
  (chatRowsFor db userID).length

/-- The value `Math.ceil(total / perPage)` computed for the Link header. -/
def totalPages (total perPage : Nat) : Nat :=
  (total + perPage - 1) / perPage

/-- One entry pushed into the `links` array: target URL and rel tag. -/
structure LinkEntry where
  target : String
  rel : String
deriving DecidableEq, Repr

/-- Serialization of a link entry into the Link header segment. -/
def LinkEntry.serialize (e : LinkEntry) : String :=
  "<" ++ e.target ++ ">; rel=\"" ++ e.rel ++ "\""

/-- The `links` array the list controller builds: a prev entry when
`page > 1`, a next entry when `page < totalPages`. -/
def linkEntries (topUrl : String) (page perPage total : Nat) : List LinkEntry :=
  (if 1 < page then
    [⟨topUrl ++ "?page=" ++ toString (page - 1) ++ "&per_page=" ++ toString perPage, "prev"⟩]
  else []) ++
  (if page < totalPages total perPage then
    [⟨topUrl ++ "?page=" ++ toString (page + 1) ++ "&per_page=" ++ toString perPage, "next"⟩]
  else [])

/-- The owner-scoped metadata object built in the create and list
controllers: blob URL from the request path plus the chat id, and all five
metadata fields including `name`. -/
def toMetaOwner (reqUrl : String) (c : ChatRec) : ChatMetaBody :=
  ⟨reqUrl ++ toString c.chatId ++ "/blob", c.chatId, c.userId, some c.name, c.createdAt, c.updatedAt⟩

/-- Embedding of `postChatController`: auth checks, regex MIME extraction
(throws when `match` returns null), split on the comma (`Buffer.from` throws
on the undefined second segment), base64 decode, row insert, 200 metadata. -/
def postChatController (userID : Nat) (base64Body nm reqUrl : String) (now : Nat) (db : DB) :
    Outcome × DB :=
  if userID = 0 then (forbiddenOutcome, db)
  else if db.users.contains userID = false then (userNotFoundOutcome, db)
  else
    match matchMime base64Body with
    | none => (.thrown jsNullIndexMsg, db)
    | some mt =>
      match (base64Body.split (fun c => c == ','))[1]? with
      | none => (.thrown jsUndefinedMsg, db)
      | some payload =>
        let chat : ChatRec := ⟨db.nextId, userID, nm, mt, decodeBase64 payload, now, now⟩
        (.resp ⟨200, [], .chatMeta (toMetaOwner reqUrl chat)⟩,
         ⟨db.users, db.chats ++ [chat], db.nextId + 1⟩)

/-- Embedding of `getAllChatsController`: auth checks, 400 on falsy
`perPage`/`page`, 400 on a sort key outside the three-value enum, raw select
with order/limit/offset, count query, Link header, 200 with the list. -/
def getAllChatsController (userID perPage page : Nat) (sortKey : Option String)
    (reqUrl : String) (db : DB) : Outcome :=
  if userID = 0 then forbiddenOutcome
  else if db.users.contains userID = false then userNotFoundOutcome
  else if perPage = 0 ∨ page = 0 then
    .resp ⟨400, [], .message "Invalid perPage or page"⟩
  else
    match sortKey with
    | none => .resp ⟨400, [], .message "shortBy Should be name, createdAt or updatedAt"⟩
    | some k =>
      if (["createdAt", "name", "updatedAt"].contains k) = false then
        .resp ⟨400, [], .message "shortBy Should be name, createdAt or updatedAt"⟩
      else
        let chats := (listItems db userID perPage page k).map (toMetaOwner reqUrl)
        let total := listTotal db userID
        .resp ⟨200,
          [("Link", String.intercalate ", " ((linkEntries reqUrl page perPage total).map LinkEntry.serialize))],
          .chatList chats⟩

/-- Embedding of `getChatByIdController`: auth checks, `findOne` on the pair
`(chatId, userId)` excluding `data`, 404 when absent; on success the source
reads `chat[0].chatId` from the single model instance, so the access throws. -/
def getChatByIdController (userID chatId : Nat) (reqUrl : String) (db : DB) : Outcome :=
  if userID = 0 then forbiddenOutcome
  else if db.users.contains userID = false then userNotFoundOutcome
  else
    match db.chats.find? (fun c => c.chatId == chatId && c.userId == userID) with
    | none => chatNotFoundOutcome
    | some chat =>
      match jsIndexZero chat with
      | none => .thrown jsUndefinedMsg
      | some c =>
        .resp ⟨200, [],
          .chatMeta ⟨reqUrl ++ "/blob", c.chatId, c.userId, some c.name, c.createdAt, c.updatedAt⟩⟩

/-- Embedding of `patchChatByIdController`: auth checks, `Chat.update` of the
name on the `(userId, chatId)` match (refreshing `updatedAt`), 404 unless
exactly one row updated, then `findOne` and 200 metadata. -/
def patchChatByIdController (userID chatId : Nat) (nm reqUrl : String) (now : Nat) (db : DB) :
    Outcome × DB :=
  if userID = 0 then (forbiddenOutcome, db)
  else if db.users.contains userID = false then (userNotFoundOutcome, db)
  else
    let n := (db.chats.filter (fun c => c.userId == userID && c.chatId == chatId)).length
    if n ≠ 1 then (chatNotFoundOutcome, db)
    else
      let chats2 := db.chats.map (fun c =>
        if c.userId == userID && c.chatId == chatId then
          ⟨c.chatId, c.userId, nm, c.mimeType, c.data, c.createdAt, now⟩
        else c)
      let db2 : DB := ⟨db.users, chats2, db.nextId⟩
      match db2.chats.find? (fun c => c.userId == userID && c.chatId == chatId) with
      | none => (.thrown jsUndefinedMsg, db2)
      | some c =>
        ((.resp ⟨200, [],
          .chatMeta ⟨reqUrl ++ "/blob", c.chatId, c.userId, some c.name, c.createdAt, c.updatedAt⟩⟩),
         db2)

/-- Embedding of `deleteChatByIdController`: auth checks, `findOne` on the
pair, 404 when absent; `chat.destroy()` deletes the row by primary key. -/
def deleteChatByIdController (userID chatId : Nat) (db : DB) : Outcome × DB :=
  if userID = 0 then (forbiddenOutcome, db)
  else if db.users.contains userID = false then (userNotFoundOutcome, db)
  else
    match db.chats.find? (fun c => c.chatId == chatId && c.userId == userID) with
    | none => (chatNotFoundOutcome, db)
    | some chat =>
      (.resp ⟨200, [], .message "ok"⟩,
       ⟨db.users, db.chats.filter (fun c => !(c.chatId == chat.chatId)), db.nextId⟩)

/-- Embedding of `getChatBlobController`: auth checks, `findOne` on the pair,
404 when absent, else 200 with the raw bytes and the stored content type. -/
def getChatBlobController (userID chatId : Nat) (db : DB) : Outcome :=
  if userID = 0 then forbiddenOutcome
  else if db.users.contains userID = false then userNotFoundOutcome
  else
    match db.chats.find? (fun c => c.chatId == chatId && c.userId == userID) with
    | none => chatNotFoundOutcome
    | some chat =>
      .resp ⟨200, [("Content-Type", chat.mimeType)], .blob chat.mimeType chat.data⟩

/-- Embedding of `getTokenByIdController`: auth checks, then the source tests
`!user.hasChat(chatId)` without awaiting the Promise, so the test observes the
truthiness of the Promise object; then `jwt.sign` on the payload with the
supplied or default expiry, 400 when the expiry does not parse, else 200 with
the token in the `chat-token` header. -/
def getTokenByIdController (userID chatId : Nat) (expiresIn : Option String)
    (secret now : Nat) (db : DB) : Outcome :=
  if userID = 0 then forbiddenOutcome
  else if db.users.contains userID = false then userNotFoundOutcome
  else if (hasChat db userID chatId).truthy = false then chatNotFoundOutcome
  else
    let expiry := expiresIn.getD "30d"
    match parseExpiry expiry with
    | none => .resp ⟨400, [], .message "Invalid expiresIn"⟩
    | some ttl =>
      let t : Token := ⟨chatId, now + ttl, mac secret chatId (now + ttl)⟩
      .resp ⟨200, [("chat-token", t.serialize)], .message "ok"⟩

/-- The try block of `getChatWithJwtController`: verify the token (a throw is
an error), select `chatId, userId, createdAt, updatedAt` for the embedded
chat id with no owner filter, return 404 when no row, else the metadata
without a `name` field. -/
def getChatWithJwtTry (secret now : Nat) (tok : TokenParam) (reqUrl : String) (db : DB) :
    Except String HttpResponse :=
  match jwtVerify secret now tok with
  | none => .error jwtInvalidMsg
  | some cid =>
    match db.chats.filter (fun c => c.chatId == cid) with
    | [] => .ok ⟨404, [], .message "Chat not found"⟩
    | c :: _ =>
      .ok ⟨200, [], .chatMeta ⟨reqUrl ++ "/blob", c.chatId, c.userId, none, c.createdAt, c.updatedAt⟩⟩

/-- Embedding of `getChatWithJwtController`: the catch clause maps any throw
inside the try block to a 410 response carrying the error message. -/
def getChatWithJwtController (secret now : Nat) (tok : TokenParam) (reqUrl : String) (db : DB) :
    Outcome :=
  match getChatWithJwtTry secret now tok reqUrl db with
  | .ok r => .resp r
  | .error m => .resp ⟨410, [], .message m⟩

/-- The try block of `getBlobWithJwtController`: verify the token, then
`Chat.findByPk(decoded.chatId)` with no owner filter and no null check;
reading `chat.mimeType` and `chat.data` throws when the lookup found
nothing. -/
def getBlobWithJwtTry (secret now : Nat) (tok : TokenParam) (db : DB) :
    Except String HttpResponse :=
  match jwtVerify secret now tok with
  | none => .error jwtInvalidMsg
  | some cid =>
    let chat := db.chats.find? (fun c => c.chatId == cid)
    match jsGet chat ChatRec.mimeType with
    | .error e => .error e
    | .ok mt =>
      match jsGet chat ChatRec.data with
      | .error e => .error e
      | .ok dat => .ok ⟨200, [("Content-Type", mt)], .blob mt dat⟩

/-- Embedding of `getBlobWithJwtController`: the catch clause maps any throw
inside the try block — including the null dereference after a failed chat
lookup — to a 410 response. -/
def getBlobWithJwtController (secret now : Nat) (tok : TokenParam) (db : DB) : Outcome :=
  match getBlobWithJwtTry secret now tok db with
  | .ok r => .resp r
  | .error m => .resp ⟨410, [], .message m⟩

/-- A datastore with one registered user and no chats. -/
def sampleEmptyDb : DB := ⟨[1], [], 1⟩

/-- One concrete chat row owned by user 1. -/
def sampleChat : ChatRec := ⟨7, 1, "note", "text/plain", [104, 105], 10, 20⟩

/-- A datastore with one registered user owning one chat. -/
def sampleDb : DB := ⟨[1], [sampleChat], 8⟩

/-- C1: the claim says a share token is issued only when the
existence/ownership check passes, and that a missing chat yields 404.  In the
source the check `!user.hasChat(chatId)` never fires because the Promise is
not awaited: with user 1 registered and no chat 5 at all, the endpoint
responds 200 and issues a token anyway. -/
theorem c1_token_issued_for_missing_chat :
    (getTokenByIdController 1 5 none 2 50 sampleEmptyDb).statusOf = some 200
  ∧ ((getTokenByIdController 1 5 none 2 50 sampleEmptyDb).header "chat-token").isSome = true
  ∧ sampleEmptyDb.chats.filter (fun c => c.chatId == 5 && c.userId == 1) = [] :=
  ⟨rfl, rfl, rfl⟩

/-- C2: the claim says an owner-scoped get-by-id of an existing owned chat
responds 200 with the metadata.  The source reads `chat[0].chatId` on the
single model instance returned by `findOne`, so on the owned chat 7 the
handler throws instead of responding; the 404 branch for a missing chat
behaves as claimed. -/
theorem c2_get_by_id_throws_on_owned_chat :
    getChatByIdController 1 7 "u" sampleDb = .thrown jsUndefinedMsg
  ∧ getChatByIdController 1 9 "u" sampleDb = chatNotFoundOutcome :=
  ⟨rfl, rfl⟩

/-- C3 counterexample: on the body string "hello", which has no recognizable
MIME segment, the create handler throws (JS: `null[0]`) and produces no HTTP
response at all — in particular not the claimed 400. -/
theorem c3_cex_malformed_input_throws :
    (postChatController 1 "hello" "note" "u" 0 sampleEmptyDb).1 = .thrown jsNullIndexMsg
  ∧ ((postChatController 1 "hello" "note" "u" 0 sampleEmptyDb).1).statusOf = none :=
  ⟨rfl, rfl⟩

/-- C3 amended: for every create request whose body string does not contain a
recognizable MIME segment, the handler throws an unhandled TypeError (no HTTP
response, no state change) rather than responding 400. -/
theorem c3_amended_malformed_input_unhandled (u : Nat) (s nm url : String) (now : Nat)
    (db : DB) (hu : u ≠ 0) (hm : db.users.contains u = true) (hmatch : matchMime s = none) :
    postChatController u s nm url now db = (.thrown jsNullIndexMsg, db) := by
  have hm2 : u ∈ db.users := by simpa using hm
  simp [postChatController, hu, hm2, hmatch]

/-- Witness for the amended C3 theorem at a concrete malformed input. -/
theorem c3_amended_witness :
    postChatController 1 "hello" "note" "u" 0 sampleEmptyDb
      = (.thrown jsNullIndexMsg, sampleEmptyDb) :=
  c3_amended_malformed_input_unhandled 1 "hello" "note" "u" 0 sampleEmptyDb
    (by decide) (by decide) rfl

/-- C8: on a concrete store with user 1 owning chat 7, the token-scoped
metadata response omits the `name` field and the owner-scoped list response
includes it, as claimed; but the owner-scoped get-by-id never produces its
name-bearing metadata response — it throws on `chat[0]` instead. -/
theorem c8_name_field_asymmetry :
    getChatWithJwtController 2 50 (.wellFormed ⟨7, 100, mac 2 7 100⟩) "u" sampleDb
      = .resp ⟨200, [], .chatMeta ⟨"u/blob", 7, 1, none, 10, 20⟩⟩
  ∧ (getAllChatsController 1 10 1 (some "name") "u" sampleDb).listBody
      = some [⟨"u7/blob", 7, 1, some "note", 10, 20⟩]
  ∧ getChatByIdController 1 7 "u" sampleDb = .thrown jsUndefinedMsg :=
  ⟨rfl, rfl, rfl⟩

/-- C9 counterexample: a share token that verifies (valid signature, not
expired) whose chat has been deleted makes the token-scoped metadata endpoint
respond 404 — an outcome the claim says never occurs (only 200 or 410). -/
theorem c9_cex_deleted_chat_gives_404 :
    (getChatWithJwtController 2 50 (.wellFormed ⟨7, 100, mac 2 7 100⟩) "u" sampleEmptyDb).statusOf
      = some 404 := rfl

/-- C9 amended: the token-scoped metadata endpoint responds 410 on any token
verification failure, 404 when the token verifies but no chat with the
embedded chatId exists, and 200 with the name-free metadata when it does;
and deleting a chat removes every row with its chatId, so the subsequent
chatId lookup finds nothing. -/
theorem c9_amended_outcomes (secret now : Nat) (tok : TokenParam) (url : String) (db : DB) :
    (jwtVerify secret now tok = none →
       getChatWithJwtController secret now tok url db = .resp ⟨410, [], .message jwtInvalidMsg⟩)
  ∧ (∀ cid, jwtVerify secret now tok = some cid →
       db.chats.filter (fun c => c.chatId == cid) = [] →
       getChatWithJwtController secret now tok url db = .resp ⟨404, [], .message "Chat not found"⟩)
  ∧ (∀ cid c rest, jwtVerify secret now tok = some cid →
       db.chats.filter (fun c => c.chatId == cid) = c :: rest →
       getChatWithJwtController secret now tok url db
         = .resp ⟨200, [], .chatMeta ⟨url ++ "/blob", c.chatId, c.userId, none, c.createdAt, c.updatedAt⟩⟩)
  ∧ (∀ u cid chat, db.chats.find? (fun c => c.chatId == cid && c.userId == u) = some chat →
       u ≠ 0 → db.users.contains u = true →
       ((deleteChatByIdController u cid db).2.chats.filter (fun c => c.chatId == cid)) = []) := by
  refine ⟨?_, ?_, ?_, ?_⟩
  · intro hv
    simp [getChatWithJwtController, getChatWithJwtTry, hv]
  · intro cid hv hfil
    simp [getChatWithJwtController, getChatWithJwtTry, hv, hfil]
  · intro cid c rest hv hfil
    simp [getChatWithJwtController, getChatWithJwtTry, hv, hfil]
  · intro u cid chat hfind hu hmem
    have hpred := List.find?_some hfind
    simp only [Bool.and_eq_true, beq_iff_eq] at hpred
    have hm2 : u ∈ db.users := by simpa using hmem
    simp only [deleteChatByIdController, hu, if_false]
    rw [if_neg (by simp [hm2])]
    simp only [hfind]
    rw [List.filter_filter]
    refine List.filter_eq_nil_iff.mpr ?_
    intro a _
    by_cases h : a.chatId = cid
    · simp [h, hpred.1]
    · simp [h]

/-- Witness for the amended C9 theorem: a malformed token yields 410. -/
theorem c9_amended_witness :
    getChatWithJwtController 2 50 (.malformed "x") "u" sampleEmptyDb
      = .resp ⟨410, [], .message jwtInvalidMsg⟩ :=
  (c9_amended_outcomes 2 50 (.malformed "x") "u" sampleEmptyDb).1 rfl

/-- C10: when the share token verifies but its embedded chatId matches no
stored chat, the blob endpoint responds 410, not 404: the null dereference is
caught by the same catch clause that maps token verification failures to
410. -/
theorem c10_blob_missing_chat_gives_410 (secret now : Nat) (tok : TokenParam) (db : DB)
    (cid : Nat) (hv : jwtVerify secret now tok = some cid)
    (hn : db.chats.find? (fun c => c.chatId == cid) = none) :
    getBlobWithJwtController secret now tok db = .resp ⟨410, [], .message jsUndefinedMsg⟩ := by
  simp [getBlobWithJwtController, getBlobWithJwtTry, hv, hn, jsGet]

/-- Witness for C10: a concrete valid token over an empty chat table. -/
theorem c10_witness :
    getBlobWithJwtController 2 50 (.wellFormed ⟨7, 100, mac 2 7 100⟩) sampleEmptyDb
      = .resp ⟨410, [], .message jsUndefinedMsg⟩ :=
  c10_blob_missing_chat_gives_410 2 50 (.wellFormed ⟨7, 100, mac 2 7 100⟩) sampleEmptyDb 7
    (by decide) rfl

/-- Membership in an insertion is membership in the inserted element or the
original list. -/
theorem mem_sqlInsert (le : ChatRec → ChatRec → Bool) (x z : ChatRec) (l : List ChatRec) :
    z ∈ sqlInsert le x l ↔ z = x ∨ z ∈ l := by
  induction l with
  | nil => simp [sqlInsert]
  | cons y ys ih =>
    simp only [sqlInsert]
    by_cases h : le x y = true
    · rw [if_pos h]
      simp [List.mem_cons]
    · rw [if_neg h]
      simp only [List.mem_cons, ih]
      tauto

/-- Insertion into a pairwise-ordered list keeps it pairwise-ordered when the
comparison is total and transitive. -/
theorem pairwise_sqlInsert (le : ChatRec → ChatRec → Bool)
    (htot : ∀ a b, le a b = true ∨ le b a = true)
    (htr : ∀ a b c, le a b = true → le b c = true → le a c = true)
    (x : ChatRec) (l : List ChatRec)
    (hl : List.Pairwise (fun a b => le a b = true) l) :
    List.Pairwise (fun a b => le a b = true) (sqlInsert le x l) := by
  induction l with
  | nil => simp [sqlInsert]
  | cons y ys ih =>
    rcases List.pairwise_cons.mp hl with ⟨hy, hys⟩
    simp only [sqlInsert]
    by_cases h : le x y = true
    · rw [if_pos h]
      refine List.pairwise_cons.mpr ⟨?_, hl⟩
      intro z hz
      rcases List.mem_cons.mp hz with rfl | hz2
      · exact h
      · exact htr x y z h (hy z hz2)
    · rw [if_neg h]
      refine List.pairwise_cons.mpr ⟨?_, ih hys⟩
      intro z hz
      rcases (mem_sqlInsert le x z ys).mp hz with rfl | hz2
      · rcases htot z y with hxy | hyx
        · exact absurd hxy h
        · exact hyx
      · exact hy z hz2

/-- The ORDER BY sort is pairwise-ordered for total transitive comparisons. -/
theorem pairwise_sqlOrderBy (le : ChatRec → ChatRec → Bool)
    (htot : ∀ a b, le a b = true ∨ le b a = true)
    (htr : ∀ a b c, le a b = true → le b c = true → le a c = true)
    (l : List ChatRec) :
    List.Pairwise (fun a b => le a b = true) (sqlOrderBy le l) := by
  induction l with
  | nil => simp [sqlOrderBy]
  | cons x xs ih =>
    simp only [sqlOrderBy]
    exact pairwise_sqlInsert le htot htr x _ ih

/-- The ORDER BY comparison is total for every sort key. -/
theorem sortLe_total (k : String) (a b : ChatRec) :
    sortLe k a b = true ∨ sortLe k b a = true := by
  unfold sortLe
  by_cases h1 : k = "updatedAt"
  · rw [if_pos h1, if_pos h1]
    simp only [decide_eq_true_eq]
    exact Nat.le_total b.updatedAt a.updatedAt
  · rw [if_neg h1, if_neg h1]
    by_cases h2 : k = "name"
    · rw [if_pos h2, if_pos h2]
      simp only [decide_eq_true_eq]
      exact le_total a.name b.name
    · rw [if_neg h2, if_neg h2]
      simp only [decide_eq_true_eq]
      exact Nat.le_total a.createdAt b.createdAt

/-- The ORDER BY comparison is transitive for every sort key. -/
theorem sortLe_trans (k : String) (a b c : ChatRec)
    (h1 : sortLe k a b = true) (h2 : sortLe k b c = true) : sortLe k a c = true := by
  unfold sortLe at h1 h2 ⊢
  by_cases hk1 : k = "updatedAt"
  · rw [if_pos hk1] at h1 h2 ⊢
    simp only [decide_eq_true_eq] at h1 h2 ⊢
    exact le_trans h2 h1
  · rw [if_neg hk1] at h1 h2 ⊢
    by_cases hk2 : k = "name"
    · rw [if_pos hk2] at h1 h2 ⊢
      simp only [decide_eq_true_eq] at h1 h2 ⊢
      exact le_trans h1 h2
    · rw [if_neg hk2] at h1 h2 ⊢
      simp only [decide_eq_true_eq] at h1 h2 ⊢
      exact le_trans h1 h2

/-- The rows the list query returns are pairwise-ordered by the ORDER BY
comparison: the sort is, and LIMIT/OFFSET take a sublist. -/
theorem pairwise_listItems (db : DB) (u pp pg : Nat) (k : String) :
    List.Pairwise (fun a b => sortLe k a b = true) (listItems db u pp pg k) :=
  List.Pairwise.sublist ((List.take_sublist _ _).trans (List.drop_sublist _ _))
    (pairwise_sqlOrderBy (sortLe k) (sortLe_total k) (sortLe_trans k) (chatRowsFor db u))

/-- Successful run of the list controller: a valid caller with an existing
user record, positive paging numbers and a sort key from the enum gets a 200
response carrying the paginated rows and the Link header. -/
theorem getAllChats_ok (db : DB) (u pp pg : Nat) (k url : String)
    (hu : u ≠ 0) (hm : db.users.contains u = true) (hpp : pp ≠ 0) (hpg : pg ≠ 0)
    (hk : (["createdAt", "name", "updatedAt"].contains k) = true) :
    getAllChatsController u pp pg (some k) url db
      = .resp ⟨200,
          [("Link", String.intercalate ", "
            ((linkEntries url pg pp (listTotal db u)).map LinkEntry.serialize))],
          .chatList ((listItems db u pp pg k).map (toMetaOwner url))⟩ := by
  have hm2 : u ∈ db.users := by simpa using hm
  have hk2 : ¬((["createdAt", "name", "updatedAt"].contains k) = false) := by
    intro hf
    rw [hk] at hf
    exact Bool.noConfusion hf
  unfold getAllChatsController
  rw [if_neg hu, if_neg (by simp [hm2]), if_neg (by simp [hpp, hpg])]
  exact if_neg hk2

/-- C4: a valid list request with positive page and perPage returns at most
perPage items, the items skipped are exactly perPage * (page - 1) rows of the
sorted owner-filtered table, and the total fed into the response is the count
of all chats owned by the caller, independent of page and perPage. -/
theorem c4_list_pagination (db : DB) (u pp pg : Nat) (k url : String)
    (hu : u ≠ 0) (hm : db.users.contains u = true) (hpp : pp ≠ 0) (hpg : pg ≠ 0)
    (hk : (["createdAt", "name", "updatedAt"].contains k) = true) :
    (getAllChatsController u pp pg (some k) url db).listBody
      = some ((listItems db u pp pg k).map (toMetaOwner url))
  ∧ listItems db u pp pg k
      = ((sqlOrderBy (sortLe k) (chatRowsFor db u)).drop (pp * (pg - 1))).take pp
  ∧ ((getAllChatsController u pp pg (some k) url db).listBody.getD []).length ≤ pp
  ∧ (getAllChatsController u pp pg (some k) url db).header "Link"
      = some (String.intercalate ", "
          ((linkEntries url pg pp ((db.chats.filter (fun c => c.userId == u)).length)).map
            LinkEntry.serialize)) := by
  have hmain := getAllChats_ok db u pp pg k url hu hm hpp hpg hk
  refine ⟨?_, rfl, ?_, ?_⟩
  · rw [hmain]
    rfl
  · rw [hmain]
    show ((listItems db u pp pg k).map (toMetaOwner url)).length ≤ pp
    rw [List.length_map]
    unfold listItems
    rw [List.length_take]
    exact min_le_left _ _
  · rw [hmain]
    rfl

/-- Witness for C4 on a concrete store. -/
theorem c4_witness :
    (getAllChatsController 1 2 1 (some "name") "u" sampleDb).listBody
      = some ((listItems sampleDb 1 2 1 "name").map (toMetaOwner "u")) :=
  (c4_list_pagination sampleDb 1 2 1 "name" "u" (by decide) (by decide) (by decide)
    (by decide) (by decide)).1

/-- C5: the rows a valid list request returns are in descending updatedAt
order under the updatedAt key, and in ascending order of the key under the
name and createdAt keys; the endpoint's 200 body is exactly those rows. -/
theorem c5_list_sort_order (db : DB) (u pp pg : Nat) (url : String)
    (hu : u ≠ 0) (hm : db.users.contains u = true) (hpp : pp ≠ 0) (hpg : pg ≠ 0) :
    List.Pairwise (fun a b : ChatRec => b.updatedAt ≤ a.updatedAt)
      (listItems db u pp pg "updatedAt")
  ∧ List.Pairwise (fun a b : ChatRec => a.name ≤ b.name) (listItems db u pp pg "name")
  ∧ List.Pairwise (fun a b : ChatRec => a.createdAt ≤ b.createdAt)
      (listItems db u pp pg "createdAt")
  ∧ (getAllChatsController u pp pg (some "updatedAt") url db).listBody
      = some ((listItems db u pp pg "updatedAt").map (toMetaOwner url))
  ∧ (getAllChatsController u pp pg (some "name") url db).listBody
      = some ((listItems db u pp pg "name").map (toMetaOwner url))
  ∧ (getAllChatsController u pp pg (some "createdAt") url db).listBody
      = some ((listItems db u pp pg "createdAt").map (toMetaOwner url)) := by
  refine ⟨?_, ?_, ?_, ?_, ?_, ?_⟩
  · refine (pairwise_listItems db u pp pg "updatedAt").imp ?_
    intro a b h
    unfold sortLe at h
    rw [if_pos rfl] at h
    exact of_decide_eq_true h
  · refine (pairwise_listItems db u pp pg "name").imp ?_
    intro a b h
    unfold sortLe at h
    rw [if_neg (by decide), if_pos rfl] at h
    exact of_decide_eq_true h
  · refine (pairwise_listItems db u pp pg "createdAt").imp ?_
    intro a b h
    unfold sortLe at h
    rw [if_neg (by decide), if_neg (by decide)] at h
    exact of_decide_eq_true h
  · rw [getAllChats_ok db u pp pg "updatedAt" url hu hm hpp hpg (by decide)]
    rfl
  · rw [getAllChats_ok db u pp pg "name" url hu hm hpp hpg (by decide)]
    rfl
  · rw [getAllChats_ok db u pp pg "createdAt" url hu hm hpp hpg (by decide)]
    rfl

/-- Witness for C5 on a concrete store. -/
theorem c5_witness :
    List.Pairwise (fun a b : ChatRec => b.updatedAt ≤ a.updatedAt)
      (listItems sampleDb 1 5 1 "updatedAt") :=
  (c5_list_sort_order sampleDb 1 5 1 "u" (by decide) (by decide) (by decide) (by decide)).1

/-- C6: a valid list response carries a Link header serializing exactly the
built link entries, which contain a prev entry iff page is greater than 1 and
a next entry iff page is less than ceil(total / perPage). -/
theorem c6_link_header (db : DB) (u pp pg : Nat) (k url : String)
    (hu : u ≠ 0) (hm : db.users.contains u = true) (hpp : pp ≠ 0) (hpg : pg ≠ 0)
    (hk : (["createdAt", "name", "updatedAt"].contains k) = true) :
    (getAllChatsController u pp pg (some k) url db).header "Link"
      = some (String.intercalate ", "
          ((linkEntries url pg pp (listTotal db u)).map LinkEntry.serialize))
  ∧ ((∃ e ∈ linkEntries url pg pp (listTotal db u), e.rel = "prev") ↔ 1 < pg)
  ∧ ((∃ e ∈ linkEntries url pg pp (listTotal db u), e.rel = "next")
      ↔ pg < totalPages (listTotal db u) pp) := by
  refine ⟨?_, ?_, ?_⟩
  · rw [getAllChats_ok db u pp pg k url hu hm hpp hpg hk]
    rfl
  · by_cases h1 : 1 < pg <;> by_cases h2 : pg < totalPages (listTotal db u) pp <;>
      simp [linkEntries, h1, h2]
  · by_cases h1 : 1 < pg <;> by_cases h2 : pg < totalPages (listTotal db u) pp <;>
      simp [linkEntries, h1, h2]

/-- Witness for C6 on a concrete store. -/
theorem c6_witness :
    (getAllChatsController 1 1 1 (some "createdAt") "u" sampleDb).header "Link"
      = some (String.intercalate ", "
          ((linkEntries "u" 1 1 (listTotal sampleDb 1)).map LinkEntry.serialize)) :=
  (c6_link_header sampleDb 1 1 1 "createdAt" "u" (by decide) (by decide) (by decide)
    (by decide) (by decide)).1

/-- C7: every owner-scoped handler (create, list, get-by-id, rename, delete,
get-blob, issue-token) first answers 403 'Not a valid token' when the
resolved user id is falsy — regardless of everything else — and then answers
404 'User not found' when the id is non-zero but no such user exists, in both
cases before touching any chat row: the store is returned unchanged. -/
theorem c7_auth_check_order (db : DB) (u : Nat) (hu : u ≠ 0)
    (hm : db.users.contains u = false)
    (s nm url : String) (ok ex : Option String) (now pp pg cid secret : Nat) :
    (postChatController 0 s nm url now db = (forbiddenOutcome, db)
      ∧ postChatController u s nm url now db = (userNotFoundOutcome, db))
  ∧ (getAllChatsController 0 pp pg ok url db = forbiddenOutcome
      ∧ getAllChatsController u pp pg ok url db = userNotFoundOutcome)
  ∧ (getChatByIdController 0 cid url db = forbiddenOutcome
      ∧ getChatByIdController u cid url db = userNotFoundOutcome)
  ∧ (patchChatByIdController 0 cid nm url now db = (forbiddenOutcome, db)
      ∧ patchChatByIdController u cid nm url now db = (userNotFoundOutcome, db))
  ∧ (deleteChatByIdController 0 cid db = (forbiddenOutcome, db)
      ∧ deleteChatByIdController u cid db = (userNotFoundOutcome, db))
  ∧ (getChatBlobController 0 cid db = forbiddenOutcome
      ∧ getChatBlobController u cid db = userNotFoundOutcome)
  ∧ (getTokenByIdController 0 cid ex secret now db = forbiddenOutcome
      ∧ getTokenByIdController u cid ex secret now db = userNotFoundOutcome) := by
  have hm2 : u ∉ db.users := by simpa using hm
  refine ⟨⟨?_, ?_⟩, ⟨?_, ?_⟩, ⟨?_, ?_⟩, ⟨?_, ?_⟩, ⟨?_, ?_⟩, ⟨?_, ?_⟩, ⟨?_, ?_⟩⟩ <;>
    simp [postChatController, getAllChatsController, getChatByIdController,
      patchChatByIdController, deleteChatByIdController, getChatBlobController,
      getTokenByIdController, hu, hm2]

/-- Witness for C7: concrete falsy-id and unknown-user requests. -/
theorem c7_witness :
    (postChatController 0 "" "" "" 0 sampleEmptyDb = (forbiddenOutcome, sampleEmptyDb)
      ∧ postChatController 2 "" "" "" 0 sampleEmptyDb = (userNotFoundOutcome, sampleEmptyDb))
  ∧ getAllChatsController 2 3 4 none "u" sampleEmptyDb = userNotFoundOutcome :=
  ⟨(c7_auth_check_order sampleEmptyDb 2 (by decide) (by decide) "" "" "u" none none
      0 3 4 0 0).1,
   (c7_auth_check_order sampleEmptyDb 2 (by decide) (by decide) "" "" "u" none none
      0 3 4 0 0).2.1.2⟩
